import Mathlib

/-!
Verification of the UrbanWheels dashboard filter-and-aggregate pipeline.

The four Streamlit pages (`Urban Wheels.py`, `1_Temporal_Analysis.py`,
`2_Weather_Impact.py`, `3_User_Behavior.py`) are shallowly embedded here.
A pandas DataFrame row is a `Row`; Python values that may be either an
integer code or a display label are modelled by `PyVal`, with Python's `==`
(heterogeneous comparison returning `False` across types) modelled by `pyEq`.
Boolean-mask filtering is `List.filter`; `groupby('hr')` key order is the
ascending sorted list of distinct hours, as pandas produces with the default
`sort=True`; `Series.idxmax`/`idxmin` return the first index attaining the
extremum, modelled by a left fold that replaces the running best only on a
strict improvement.
-/

/-- A Python scalar as it occurs in the coded/labelled columns: either an
integer category code or a display-label string. -/
inductive PyVal
  | pyInt : ℤ → PyVal
  | pyStr : String → PyVal
deriving DecidableEq

/-- Python `==` between column scalars: equal only within the same type;
an int never equals a str (this is why the insight branches on the main page
can never fire). -/
def pyEq : PyVal → PyVal → Bool
  | PyVal.pyInt a, PyVal.pyInt b => a == b
  | PyVal.pyStr a, PyVal.pyStr b => a == b
  | _, _ => false

/-- Python `v in l` membership / pandas `Series.isin` per element. -/
def pyMem (v : PyVal) (l : List PyVal) : Bool := l.any (fun w => pyEq v w)

/-- Whether the scalar is an integer code. -/
def PyVal.isInt : PyVal → Bool
  | PyVal.pyInt _ => true
  | PyVal.pyStr _ => false

/-- One row of `hour_cleaned.csv` as the pages use it.  `dteday` is a date
ordinal, `yr`/`season`/`weathersit`/`weekday` are coded columns (re-labelled
to strings only for display), `workingday` is the 0/1 flag, and
`casual`/`registered`/`cnt` are the rider counts. -/
structure Row where
  dteday : ℕ
  yr : PyVal
  season : PyVal
  weathersit : PyVal
  weekday : PyVal
  hr : ℕ
  workingday : ℕ
  casual : ℕ
  registered : ℕ
  cnt : ℕ
deriving DecidableEq

/-- The main page's `Working Day?` selectbox state. -/
inductive WorkingFilter
  | all
  | workingDay
  | holidayWeekend
deriving DecidableEq

/-- The sidebar filter state after the widget comprehensions ran: the
selection lists hold whatever Python values the script put in them
(integer codes, or a column's distinct values after a fallback). -/
structure Params where
  sel_years : List PyVal
  sel_seasons : List PyVal
  sel_weather : List PyVal
  sel_weekdays : List PyVal
  h0 : ℕ
  h1 : ℕ
  d0 : ℕ
  d1 : ℕ
  working_sel : WorkingFilter
deriving DecidableEq

/-- Row predicate of the main page's boolean mask (`Urban Wheels.py`
lines 66-72): year, season and weather membership, hour range, date range.
No weekday test appears on the main page. -/
def main_pred (p : Params) (r : Row) : Bool :=
  pyMem r.yr p.sel_years && pyMem r.season p.sel_seasons &&
  pyMem r.weathersit p.sel_weather &&
  decide (p.h0 ≤ r.hr) && decide (r.hr ≤ p.h1) &&
  decide (p.d0 ≤ r.dteday) && decide (r.dteday ≤ p.d1)

/-- `filtered_df` of the main page: `df[mask]` with `main_pred`. -/
def filtered_df_main (df : List Row) (p : Params) : List Row :=
  df.filter (main_pred p)

/-- Row predicate of the three subpages' boolean mask
(`1_Temporal_Analysis.py` lines 63-70, `2_Weather_Impact.py` lines 66-73,
`3_User_Behavior.py` lines 65-72): year, season and weekday membership, date
range, hour range.  The collected weather selection is NOT tested anywhere
in this mask, although pages 2 and 3 build a `selected_weather` list. -/
def pages_pred (p : Params) (r : Row) : Bool :=
  pyMem r.yr p.sel_years && pyMem r.season p.sel_seasons &&
  pyMem r.weekday p.sel_weekdays &&
  decide (p.d0 ≤ r.dteday) && decide (r.dteday ≤ p.d1) &&
  decide (p.h0 ≤ r.hr) && decide (r.hr ≤ p.h1)

/-- `filtered_df` of the subpages. -/
def filtered_df_pages (df : List Row) (p : Params) : List Row :=
  df.filter (pages_pred p)

/-- pandas `Series.unique` on a column: distinct values in order of first
occurrence. -/
def pdUnique (l : List PyVal) : List PyVal :=
  l.foldl (fun acc a => if a ∈ acc then acc else acc ++ [a]) []

/-- The weekday widget's label map (`weekday_map` on pages 1-3). -/
def weekday_items : List (ℤ × String) :=
  [(0, "Sunday"), (1, "Monday"), (2, "Tuesday"), (3, "Wednesday"),
   (4, "Thursday"), (5, "Friday"), (6, "Saturday")]

/-- `selected_weekdays = [k for k, v in weekday_map.items() if v in raw]`. -/
def selected_weekdays_pre (raw : List String) : List PyVal :=
  (weekday_items.filter (fun kv => raw.contains kv.2)).map
    (fun kv => PyVal.pyInt kv.1)

/-- Pages 1-3, lines 59-64: `if not selected_weekdays: selected_weekdays =
df['weathersit'].unique()`.  The empty-weekday fallback substitutes the
distinct WEATHER codes of the dataset, not the weekday codes. -/
def resolve_weekdays (pre : List PyVal) (df : List Row) : List PyVal :=
  if pre.isEmpty then pdUnique (df.map Row.weathersit) else pre

/-- The season widget's label map (`season_map`, all pages). -/
def season_items : List (ℤ × String) :=
  [(1, "Spring"), (2, "Summer"), (3, "Fall"), (4, "Winter")]

/-- The main page's weather widget label map (`weather_map`). -/
def weather_items : List (ℤ × String) :=
  [(1, "Clear"), (2, "Mist + Cloudy"), (3, "Light Snow/Rain"), (4, "Heavy Rain/Snow")]

/-- `if not selected: selected = df[col].unique()` — the empty-selection
fallback used on the main page for years, seasons and weather. -/
def resolve_sel (pre : List PyVal) (col : List PyVal) : List PyVal :=
  if pre.isEmpty then pdUnique col else pre

/-- Main page `selected_seasons` after the widget comprehension (line 31)
and the empty-selection fallback (lines 60-61). -/
def selected_seasons_of (raw : List String) (df : List Row) : List PyVal :=
  resolve_sel
    ((season_items.filter (fun kv => raw.contains kv.2)).map (fun kv => PyVal.pyInt kv.1))
    (df.map Row.season)

/-- Main page `selected_weather` after the widget comprehension (line 35)
and the empty-selection fallback (lines 62-63). -/
def selected_weather_of (raw : List String) (df : List Row) : List PyVal :=
  resolve_sel
    ((weather_items.filter (fun kv => raw.contains kv.2)).map (fun kv => PyVal.pyInt kv.1))
    (df.map Row.weathersit)

/-- Which insight box the main page shows (lines 155-160). -/
inductive Insight
  | heavyWinter
  | summerFleet
  | generic
deriving DecidableEq

/-- The conditional insight block of the main page: `"Winter" in
selected_seasons and "Heavy Rain/Snow" in selected_weather`, then
`"Summer" in selected_seasons`, else the generic info box. -/
def insight_of (ss sw : List PyVal) : Insight :=
  if pyMem (PyVal.pyStr "Winter") ss && pyMem (PyVal.pyStr "Heavy Rain/Snow") sw then
    Insight.heavyWinter
  else if pyMem (PyVal.pyStr "Summer") ss then Insight.summerFleet
  else Insight.generic

/-- pandas `Series.replace(dict)` on one scalar: first matching key wins,
unmatched values pass through. -/
def pdReplace (m : List (PyVal × PyVal)) (v : PyVal) : PyVal :=
  match m.find? (fun kv => pyEq kv.1 v) with
  | some kv => kv.2
  | none => v

/-- Display re-labelling dictionary for `season` (lines 75-77 of the main
page and the analogous lines of each subpage). -/
def season_repl : List (PyVal × PyVal) :=
  [(PyVal.pyInt 1, PyVal.pyStr "Spring"), (PyVal.pyInt 2, PyVal.pyStr "Summer"),
   (PyVal.pyInt 3, PyVal.pyStr "Fall"), (PyVal.pyInt 4, PyVal.pyStr "Winter")]

/-- Display re-labelling dictionary for `weathersit` (lines 79-81). -/
def weather_repl : List (PyVal × PyVal) :=
  [(PyVal.pyInt 1, PyVal.pyStr "Clear"), (PyVal.pyInt 2, PyVal.pyStr "Mist/Cloudy"),
   (PyVal.pyInt 3, PyVal.pyStr "Light Rain/Snow"), (PyVal.pyInt 4, PyVal.pyStr "Heavy Rain/Snow")]

/-- Display re-labelling dictionary for `weekday` (lines 83-86). -/
def weekday_repl : List (PyVal × PyVal) :=
  [(PyVal.pyInt 0, PyVal.pyStr "Sunday"), (PyVal.pyInt 1, PyVal.pyStr "Monday"),
   (PyVal.pyInt 2, PyVal.pyStr "Tuesday"), (PyVal.pyInt 3, PyVal.pyStr "Wednesday"),
   (PyVal.pyInt 4, PyVal.pyStr "Thursday"), (PyVal.pyInt 5, PyVal.pyStr "Friday"),
   (PyVal.pyInt 6, PyVal.pyStr "Saturday")]

/-- `filtered_df["season"] = filtered_df["season"].replace({...})`. -/
def label_season_col (rows : List Row) : List Row :=
  rows.map (fun r => { r with season := pdReplace season_repl r.season })

/-- `filtered_df["weathersit"] = filtered_df["weathersit"].replace({...})`. -/
def label_weather_col (rows : List Row) : List Row :=
  rows.map (fun r => { r with weathersit := pdReplace weather_repl r.weathersit })

/-- `filtered_df["weekday"] = filtered_df["weekday"].replace({...})`. -/
def label_weekday_col (rows : List Row) : List Row :=
  rows.map (fun r => { r with weekday := pdReplace weekday_repl r.weekday })

/-- The three re-labelling statements in script order. -/
def label_all (rows : List Row) : List Row :=
  label_weekday_col (label_weather_col (label_season_col rows))

/-- The main page's working-day refinement (lines 92-95), applied AFTER the
empty-result guard. -/
def apply_working : WorkingFilter → List Row → List Row
  | WorkingFilter.all, rows => rows
  | WorkingFilter.workingDay, rows => rows.filter (fun r => r.workingday == 1)
  | WorkingFilter.holidayWeekend, rows => rows.filter (fun r => r.workingday == 0)

/-- `filtered_df['cnt'].sum()`. -/
def sum_cnt (rows : List Row) : ℕ := (rows.map Row.cnt).sum

/-- `filtered_df['casual'].sum()`. -/
def sum_casual (rows : List Row) : ℕ := (rows.map Row.casual).sum

/-- `filtered_df['registered'].sum()`. -/
def sum_registered (rows : List Row) : ℕ := (rows.map Row.registered).sum

/-- Result of numpy true division of integer scalars: a finite float,
`+inf` (division of a positive numerator by zero, reported only as a
RuntimeWarning), or `NaN` (0/0). -/
inductive NpFloat
  | fin : ℚ → NpFloat
  | inf : NpFloat
  | nan : NpFloat
deriving DecidableEq

/-- numpy `a / b` on the non-negative integer sums the pages divide. -/
def npDivNat (a b : ℕ) : NpFloat :=
  if b ≠ 0 then NpFloat.fin ((a : ℚ) / (b : ℚ))
  else if a ≠ 0 then NpFloat.inf
  else NpFloat.nan

/-- pandas `groupby('hr')` key list: distinct hours in ascending order
(default `sort=True`), built by sorted insertion. -/
def insertHour (h : ℕ) : List ℕ → List ℕ
  | [] => [h]
  | a :: l => if h < a then h :: a :: l else if h = a then a :: l else a :: insertHour h l

/-- Distinct hours of the row-set, ascending. -/
def group_hours (rs : List Row) : List ℕ :=
  rs.foldr (fun r acc => insertHour r.hr acc) []

/-- `groupby('hr')['cnt'].mean()` at one hour key: mean of `cnt` over the
rows with that hour. -/
def mean_cnt_at (rs : List Row) (h : ℕ) : ℚ :=
  let g := rs.filter (fun r => r.hr == h)
  ((g.map (fun r => (r.cnt : ℚ))).sum) / (g.length : ℚ)

/-- The per-hour mean series as (hour, mean) pairs in ascending hour order. -/
def hour_mean_pairs (rs : List Row) : List (ℕ × ℚ) :=
  (group_hours rs).map (fun h => (h, mean_cnt_at rs h))

/-- Fold of pandas `Series.idxmax`: the running best is replaced only by a
STRICTLY greater value, so the first index attaining the maximum survives. -/
def idxmaxAux : ℕ × ℚ → List (ℕ × ℚ) → ℕ × ℚ
  | best, [] => best
  | best, p :: rest => idxmaxAux (if best.2 < p.2 then p else best) rest

/-- `Series.idxmax` over an index/value pair list (None on an empty series,
where pandas raises ValueError). -/
def idxmaxFirst : List (ℕ × ℚ) → Option ℕ
  | [] => none
  | p :: rest => some (idxmaxAux p rest).1

/-- Fold of pandas `Series.idxmin`: replaced only by a strictly smaller
value. -/
def idxminAux : ℕ × ℚ → List (ℕ × ℚ) → ℕ × ℚ
  | best, [] => best
  | best, p :: rest => idxminAux (if p.2 < best.2 then p else best) rest

/-- `Series.idxmin` over an index/value pair list. -/
def idxminFirst : List (ℕ × ℚ) → Option ℕ
  | [] => none
  | p :: rest => some (idxminAux p rest).1

/-- `int(filtered_df.groupby('hr')['cnt'].mean().idxmax())` — the Peak Hour
metric of the main page (line 105) and page 1 (line 93). -/
def peak_hour (rs : List Row) : Option ℕ := idxmaxFirst (hour_mean_pairs rs)

/-- `idxmin` counterpart — the Least Active Hour metric of page 1 (line 94). -/
def trough_hour (rs : List Row) : Option ℕ := idxminFirst (hour_mean_pairs rs)

/-- The main page KPI row (lines 104-109): total rentals, peak hour, and the
registered/casual percentages `100 * class_sum / cnt_sum`. -/
structure MainKpis where
  totalRentals : ℕ
  peak : Option ℕ
  regPct : NpFloat
  casPct : NpFloat
deriving DecidableEq

def main_kpis (rows : List Row) : MainKpis :=
  ⟨sum_cnt rows, peak_hour rows,
   npDivNat (100 * sum_registered rows) (sum_cnt rows),
   npDivNat (100 * sum_casual rows) (sum_cnt rows)⟩

/-- Outcome of one main-page run: either the empty-result guard stopped the
script, or the page went on to render the KPI row over the rows it had after
the working-day refinement. -/
inductive MainOutcome
  | stopNoData
  | render : MainKpis → List Row → MainOutcome
deriving DecidableEq

/-- One main-page run in script order: filter (lines 66-72), re-label
(75-86), empty-result guard (88-90), working-day refinement (92-95), then
the KPI aggregation (104-109).  Note the guard tests emptiness BEFORE the
working-day refinement is applied. -/
def mainRun (df : List Row) (p : Params) : MainOutcome :=
  let f1 := label_all (filtered_df_main df p)
  if f1.isEmpty then MainOutcome.stopNoData
  else
    let f2 := apply_working p.working_sel f1
    MainOutcome.render (main_kpis f2) f2

/-- A store of live DataFrames, to make explicit which frame each statement
of the script writes to.  `df[boolean mask]` always allocates a NEW frame
(pandas boolean-mask indexing returns a copy), and the three re-label
assignments write in place to the frame they are called on. -/
structure Mem where
  frames : List (List Row)

def mem_alloc (m : Mem) (f : List Row) : Mem × ℕ :=
  (⟨m.frames ++ [f]⟩, m.frames.length)

def mem_write (m : Mem) (i : ℕ) (f : List Row) : Mem :=
  ⟨m.frames.set i f⟩

def mem_read (m : Mem) (i : ℕ) : List Row :=
  m.frames.getD i []

/-- The main-page script against the frame store: load `df`, allocate the
filtered copy, then perform the three in-place re-label writes on the
filtered frame.  Returns the final store with the indices of `df` and of
`filtered_df`. -/
def run_main_script (csv : List Row) (p : Params) : Mem × ℕ × ℕ :=
  let a1 := mem_alloc ⟨[]⟩ csv
  let a2 := mem_alloc a1.1 (filtered_df_main (mem_read a1.1 a1.2) p)
  let m3 := mem_write a2.1 a2.2 (label_season_col (mem_read a2.1 a2.2))
  let m4 := mem_write m3 a2.2 (label_weather_col (mem_read m3 a2.2))
  let m5 := mem_write m4 a2.2 (label_weekday_col (mem_read m4 a2.2))
  (m5, a1.2, a2.2)

/-- Mean of a rational list (`Series.mean`). -/
def list_mean (xs : List ℚ) : ℚ := xs.sum / (xs.length : ℚ)

/-- The per-hour mean `cnt` series of page 1 line 95. -/
def hour_means (rs : List Row) : List ℚ :=
  (group_hours rs).map (mean_cnt_at rs)

/-- pandas `Series.std()` (ddof=1), modelled by its square, the sample
variance: `NaN` — modelled as `none` — when fewer than two values are
present, else the sum of squared deviations over `n - 1`.  The reported
standard deviation is the square root of this value, so definedness and
equality of the two sides are unchanged by working with the square. -/
def pd_sample_var (xs : List ℚ) : Option ℚ :=
  if xs.length < 2 then none
  else some (((xs.map (fun x => (x - list_mean xs) ^ 2)).sum) / ((xs.length : ℚ) - 1))

/-- `hour_std` of page 1 line 95 (squared; see `pd_sample_var`). -/
def hour_std_sq (rs : List Row) : Option ℚ := pd_sample_var (hour_means rs)

/-- Written from the spec's words, for comparison: "sample standard
deviation of the per-hour mean `total_count` series (ddof=1 convention)" —
again squared, i.e. the ddof=1 sample variance of the series. -/
def spec_sample_variance (xs : List ℚ) : ℚ :=
  ((xs.map (fun x => (x - list_mean xs) ^ 2)).sum) / ((xs.length : ℚ) - 1)

/-- Outcome of one page-1 (Temporal Analysis) run: the empty-result guard,
or the rendered metric row (peak hour, least active hour, hourly demand
variability — `none` in the last slot is a rendered NaN). -/
inductive TemporalOutcome
  | stopNoData
  | render : Option ℕ → Option ℕ → Option ℚ → TemporalOutcome
deriving DecidableEq

/-- One page-1 run in script order: filter, re-label, empty guard, metrics
(lines 93-96).  The variability metric is rendered unconditionally as
`f"{hour_std}"`, so a NaN is displayed as the text "nan". -/
def temporalRun (df : List Row) (p : Params) : TemporalOutcome :=
  let f := label_all (filtered_df_pages df p)
  if f.isEmpty then TemporalOutcome.stopNoData
  else TemporalOutcome.render (peak_hour f) (trough_hour f) (hour_std_sq f)

/-- The row-set page 3 (User Behavior) computes its statistics on. -/
def behavior_rows (df : List Row) (p : Params) : List Row :=
  label_all (filtered_df_pages df p)

/-- Outcome of one page-3 run: the empty-result guard, or the rendered
user-statistics row (registered %, casual %, registered/casual ratio). -/
inductive BehaviorOutcome
  | stopNoData
  | render : NpFloat → NpFloat → NpFloat → BehaviorOutcome
deriving DecidableEq

/-- One page-3 run in script order: filter, re-label, empty guard, then the
three metrics of lines 94-101; the ratio is
`total['registered'] / total['casual']`, rendered unconditionally. -/
def behaviorRun (df : List Row) (p : Params) : BehaviorOutcome :=
  let f := behavior_rows df p
  if f.isEmpty then BehaviorOutcome.stopNoData
  else
    BehaviorOutcome.render
      (npDivNat (100 * sum_registered f) (sum_casual f + sum_registered f))
      (npDivNat (100 * sum_casual f) (sum_casual f + sum_registered f))
      (npDivNat (sum_registered f) (sum_casual f))

/-- The ratio metric as rendered, if the run reached the metric row. -/
def rendered_reg_over_cas : BehaviorOutcome → Option NpFloat
  | BehaviorOutcome.stopNoData => none
  | BehaviorOutcome.render _ _ r => some r

/-- Demo dataset for C1: a single row whose weather code is 4
(Heavy Rain/Snow) and which passes every other predicate below. -/
def row1 : Row := ⟨10, PyVal.pyInt 0, PyVal.pyInt 1, PyVal.pyInt 4, PyVal.pyInt 2, 5, 1, 3, 4, 7⟩

def demoDf1 : List Row := [row1]

/-- C1 demo selection: weather restricted to code 1 (Clear) only. -/
def demoP1 : Params :=
  ⟨[PyVal.pyInt 0], [PyVal.pyInt 1], [PyVal.pyInt 1], [PyVal.pyInt 2],
   0, 23, 0, 100, WorkingFilter.all⟩

/-- C1 demo selection with the weather dimension changed to code 4. -/
def demoP1b : Params :=
  ⟨[PyVal.pyInt 0], [PyVal.pyInt 1], [PyVal.pyInt 4], [PyVal.pyInt 2],
   0, 23, 0, 100, WorkingFilter.all⟩

/-- Demo dataset for C2: a single row with weekday code 0 (Sunday) and
weather code 1 (Clear). -/
def row2 : Row := ⟨10, PyVal.pyInt 0, PyVal.pyInt 1, PyVal.pyInt 1, PyVal.pyInt 0, 5, 1, 1, 1, 2⟩

def demoDf2 : List Row := [row2]

/-- C2 demo parameters with the weekday dimension resolved from an EMPTY raw
selection by the code's fallback (which substitutes weather codes). -/
def demoP2a : Params :=
  ⟨[PyVal.pyInt 0], [PyVal.pyInt 1], [PyVal.pyInt 1],
   resolve_weekdays (selected_weekdays_pre []) demoDf2,
   0, 23, 0, 100, WorkingFilter.all⟩

/-- C2 demo parameters selecting every weekday code present in the dataset. -/
def demoP2b : Params :=
  ⟨[PyVal.pyInt 0], [PyVal.pyInt 1], [PyVal.pyInt 1],
   pdUnique (demoDf2.map Row.weekday),
   0, 23, 0, 100, WorkingFilter.all⟩

/-- Demo row for C3: `workingday = 0`; it passes the main-page filter. -/
def row3 : Row := ⟨10, PyVal.pyInt 0, PyVal.pyInt 1, PyVal.pyInt 1, PyVal.pyInt 2, 5, 0, 3, 4, 7⟩

def demoDf3 : List Row := [row3]

/-- C3 demo selection: everything passes, `Working Day?` set to
"Working Day". -/
def demoP3 : Params :=
  ⟨[PyVal.pyInt 0], [PyVal.pyInt 1], [PyVal.pyInt 1], [PyVal.pyInt 2],
   0, 23, 0, 100, WorkingFilter.workingDay⟩

/-- Demo row for C4: a single observed hour (5). -/
def row4 : Row := ⟨10, PyVal.pyInt 0, PyVal.pyInt 1, PyVal.pyInt 1, PyVal.pyInt 2, 5, 1, 4, 6, 10⟩

def demoDf4 : List Row := [row4]

/-- C4 demo selection: everything passes. -/
def demoP4 : Params :=
  ⟨[PyVal.pyInt 0], [PyVal.pyInt 1], [PyVal.pyInt 1], [PyVal.pyInt 2],
   0, 23, 0, 100, WorkingFilter.all⟩

/-- Second demo row for C4, at a different hour (9). -/
def row4b : Row := ⟨11, PyVal.pyInt 0, PyVal.pyInt 1, PyVal.pyInt 1, PyVal.pyInt 2, 9, 1, 2, 4, 6⟩

/-- C4 witness dataset with two distinct hours. -/
def demoDf4w : List Row := [row4, row4b]

/-- Demo row for C5: casual count 0, registered count 7. -/
def row5 : Row := ⟨10, PyVal.pyInt 0, PyVal.pyInt 1, PyVal.pyInt 1, PyVal.pyInt 2, 5, 1, 0, 7, 7⟩

def demoDf5 : List Row := [row5]

/-- C5 witness row: nonzero casual count. -/
def row5b : Row := ⟨10, PyVal.pyInt 0, PyVal.pyInt 1, PyVal.pyInt 1, PyVal.pyInt 2, 5, 1, 2, 6, 8⟩

def demoDf5b : List Row := [row5b]

/-- C5 demo selection: everything passes. -/
def demoP5 : Params :=
  ⟨[PyVal.pyInt 0], [PyVal.pyInt 1], [PyVal.pyInt 1], [PyVal.pyInt 2],
   0, 23, 0, 100, WorkingFilter.all⟩

/-- Demo dataset for C6: one row, `dteday = 5`. -/
def demoDf6 : List Row :=
  [⟨5, PyVal.pyInt 0, PyVal.pyInt 1, PyVal.pyInt 1, PyVal.pyInt 2, 5, 1, 1, 1, 2⟩]

/-- C6 counterexample selection: date range `[10, 2]` with start > end. -/
def demoP6cex : Params :=
  ⟨[PyVal.pyInt 0], [PyVal.pyInt 1], [PyVal.pyInt 1], [PyVal.pyInt 2],
   0, 23, 10, 2, WorkingFilter.all⟩

/-- C6 witness selection: date range `[7, 3]` with start > end. -/
def demoP6w : Params :=
  ⟨[PyVal.pyInt 0], [PyVal.pyInt 1], [PyVal.pyInt 1], [PyVal.pyInt 2],
   0, 23, 7, 3, WorkingFilter.all⟩

/-- Demo filtered set for C7's witness: hours 8 and 17 tie for the maximal
mean count (100 each), hour 3 is the minimum (the spec's tie scenario). -/
def demoRs7 : List Row :=
  [⟨10, PyVal.pyInt 0, PyVal.pyInt 1, PyVal.pyInt 1, PyVal.pyInt 2, 3, 1, 1, 9, 10⟩,
   ⟨10, PyVal.pyInt 0, PyVal.pyInt 1, PyVal.pyInt 1, PyVal.pyInt 2, 8, 1, 20, 80, 100⟩,
   ⟨10, PyVal.pyInt 0, PyVal.pyInt 1, PyVal.pyInt 1, PyVal.pyInt 2, 17, 1, 30, 70, 100⟩]

/-- C1: on pages 2 and 3 the weather set-membership predicate is absent from
the filter conjunction: a row whose weather code is NOT in the selected
weather set is retained anyway, and changing the selected weather set does
not change the retained rows.  This evaluates the embedded page filter at
the failing input. -/
theorem weather_filter_not_applied_on_pages :
    filtered_df_pages demoDf1 demoP1 = demoDf1 ∧
    pyMem row1.weathersit demoP1.sel_weather = false ∧
    filtered_df_pages demoDf1 demoP1b = filtered_df_pages demoDf1 demoP1 := by
  decide

/-- C2: with an empty raw weekday selection, the fallback on pages 1-3
substitutes `df['weathersit'].unique()` (weather codes) for the weekday
selection, so the filtered row-set differs from the one obtained by
selecting every weekday code present in the dataset: here the empty
selection filters everything out while the all-weekdays selection keeps the
row, contradicting the code's own comment "fall back to all options". -/
theorem weekday_empty_fallback_uses_weather_codes :
    resolve_weekdays (selected_weekdays_pre []) demoDf2 = [PyVal.pyInt 1] ∧
    filtered_df_pages demoDf2 demoP2a = [] ∧
    filtered_df_pages demoDf2 demoP2b = demoDf2 := by
  decide

theorem mem_pdUnique_foldl (l : List PyVal) :
    ∀ (acc : List PyVal) (x : PyVal),
      x ∈ l.foldl (fun acc a => if a ∈ acc then acc else acc ++ [a]) acc →
      x ∈ acc ∨ x ∈ l := by
  induction l with
  | nil => intro acc x hx; exact Or.inl hx
  | cons a t ih =>
    intro acc x hx
    rw [List.foldl_cons] at hx
    rcases ih _ x hx with h | h
    · by_cases hc : a ∈ acc
      · rw [if_pos hc] at h
        exact Or.inl h
      · rw [if_neg hc] at h
        rcases List.mem_append.mp h with h1 | h1
        · exact Or.inl h1
        · rw [List.mem_singleton] at h1
          exact Or.inr (by rw [h1]; exact List.mem_cons_self a t)
    · exact Or.inr (List.mem_cons_of_mem a h)

theorem mem_pdUnique {l : List PyVal} {x : PyVal} (h : x ∈ pdUnique l) : x ∈ l := by
  rcases mem_pdUnique_foldl l [] x h with h1 | h1
  · cases h1
  · exact h1

theorem pyMem_str_false (s : String) :
    ∀ l : List PyVal, (∀ v ∈ l, v.isInt = true) → pyMem (PyVal.pyStr s) l = false := by
  intro l
  induction l with
  | nil => intro _; rfl
  | cons a t ih =>
    intro h
    have ha := h a (List.mem_cons_self a t)
    have ht : ∀ v ∈ t, v.isInt = true := fun v hv => h v (List.mem_cons_of_mem a hv)
    simp only [pyMem, List.any_cons, Bool.or_eq_false_iff]
    constructor
    · cases a with
      | pyInt n => rfl
      | pyStr s2 => simp [PyVal.isInt] at ha
    · exact ih ht

/-- C10: whatever the raw widget selections and however the empty-selection
fallbacks fire, `selected_seasons` and `selected_weather` on the main page
hold only integer codes (from the comprehension over the integer-keyed maps,
or from the integer-coded dataset columns), so the string membership tests
of the insight block are all False and the generic info branch is always
taken: the heavy-winter and summer branches are unreachable. -/
theorem insight_always_generic (rawS rawW : List String) (df : List Row)
    (hcoded : ∀ r ∈ df, (Row.season r).isInt = true ∧ (Row.weathersit r).isInt = true) :
    insight_of (selected_seasons_of rawS df) (selected_weather_of rawW df) = Insight.generic := by
  have hS : ∀ v ∈ selected_seasons_of rawS df, v.isInt = true := by
    intro v hv
    unfold selected_seasons_of resolve_sel at hv
    split at hv
    · obtain ⟨r, hr, hrr⟩ := List.mem_map.mp (mem_pdUnique hv)
      rw [← hrr]
      exact (hcoded r hr).1
    · obtain ⟨kv, _, hkv⟩ := List.mem_map.mp hv
      rw [← hkv]
      rfl
  have hW : ∀ v ∈ selected_weather_of rawW df, v.isInt = true := by
    intro v hv
    unfold selected_weather_of resolve_sel at hv
    split at hv
    · obtain ⟨r, hr, hrr⟩ := List.mem_map.mp (mem_pdUnique hv)
      rw [← hrr]
      exact (hcoded r hr).2
    · obtain ⟨kv, _, hkv⟩ := List.mem_map.mp hv
      rw [← hkv]
      rfl
  have h1 := pyMem_str_false "Winter" _ hS
  have h2 := pyMem_str_false "Summer" _ hS
  have h3 := pyMem_str_false "Heavy Rain/Snow" _ hW
  simp [insight_of, h1, h2, h3]

/-- C10 witness: the generic branch is what a concrete run with the
heavy-winter raw selection over an integer-coded dataset produces. -/
theorem insight_always_generic_witness :
    (∀ r ∈ demoDf2, (Row.season r).isInt = true ∧ (Row.weathersit r).isInt = true) ∧
    insight_of (selected_seasons_of ["Winter"] demoDf2)
      (selected_weather_of ["Heavy Rain/Snow"] demoDf2) = Insight.generic :=
  ⟨by decide, insight_always_generic ["Winter"] ["Heavy Rain/Snow"] demoDf2 (by decide)⟩

/-- C3: the empty-result guard of the main page runs BEFORE the working-day
refinement, so a selection whose working-day filter empties the row-set does
not halt in the no-data state: the run reaches the KPI row and aggregates
over the empty set (total 0; the peak-hour arg-max is undefined — pandas
raises ValueError there — and both percentages are 0/0, NaN). -/
theorem working_day_filter_bypasses_empty_guard :
    apply_working demoP3.working_sel (label_all (filtered_df_main demoDf3 demoP3)) = [] ∧
    mainRun demoDf3 demoP3 = MainOutcome.render ⟨0, none, NpFloat.nan, NpFloat.nan⟩ [] := by
  decide

theorem main_pred_date_bounds (p : Params) (r : Row) (h : main_pred p r = true) :
    p.d0 ≤ r.dteday ∧ r.dteday ≤ p.d1 := by
  simp only [main_pred, Bool.and_eq_true, decide_eq_true_eq] at h
  exact ⟨h.1.2, h.2⟩

/-- C6 amended: a date range with start > end is not rejected by any
parameter validation; the conjunction of the two date predicates is then
unsatisfiable, so the filter returns the empty row-set and the run halts at
the generic empty-result guard ("No data available"), exactly as for any
other empty result. -/
theorem reversed_date_range_amended (df : List Row) (p : Params) (h : p.d1 < p.d0) :
    filtered_df_main df p = [] ∧ mainRun df p = MainOutcome.stopNoData := by
  have hnil : filtered_df_main df p = [] := by
    apply List.filter_eq_nil_iff.mpr
    intro r hr hpred
    have hb := main_pred_date_bounds p r hpred
    omega
  refine ⟨hnil, ?_⟩
  unfold mainRun
  rw [hnil]
  rfl

/-- C6 counterexample: with start 10 > end 2 on a nonempty dataset the
engine silently returns the empty filtered result — there is no
parameter-validation failure anywhere on this path. -/
theorem reversed_date_range_silently_empty :
    demoP6cex.d1 < demoP6cex.d0 ∧ demoDf6 ≠ [] ∧
    filtered_df_main demoDf6 demoP6cex = [] := by
  decide

/-- C6 witness for the amended statement at a concrete reversed range. -/
theorem reversed_date_range_amended_witness :
    demoP6w.d1 < demoP6w.d0 ∧
    (filtered_df_main demoDf6 demoP6w = [] ∧
     mainRun demoDf6 demoP6w = MainOutcome.stopNoData) :=
  ⟨by decide, reversed_date_range_amended demoDf6 demoP6w (by decide)⟩

/-- C8: one full main-page run against the frame store leaves the loaded
source frame exactly as loaded (so its coded columns stay integer-coded
across invocations), and the three display re-label writes land only on the
freshly allocated filtered copy, which ends as the labelled projection of
the filtered rows. -/
theorem main_script_preserves_source (csv : List Row) (p : Params) :
    mem_read (run_main_script csv p).1 (run_main_script csv p).2.1 = csv ∧
    mem_read (run_main_script csv p).1 (run_main_script csv p).2.2 =
      label_all (filtered_df_main csv p) :=
  ⟨rfl, rfl⟩

/-- C9: the filter is a pure row-wise predicate, so applying the same
normalized parameter set to its own output returns the output unchanged. -/
theorem apply_filters_idempotent (df : List Row) (p : Params) :
    filtered_df_main (filtered_df_main df p) p = filtered_df_main df p :=
  List.filter_eq_self.mpr (fun _ ha => List.of_mem_filter ha)

theorem idxmaxAux_le (l : List (ℕ × ℚ)) :
    ∀ best : ℕ × ℚ, best.2 ≤ (idxmaxAux best l).2 ∧
      ∀ p ∈ l, p.2 ≤ (idxmaxAux best l).2 := by
  induction l with
  | nil =>
    intro best
    exact ⟨le_refl _, by intro p hp; cases hp⟩
  | cons q t ih =>
    intro best
    simp only [idxmaxAux]
    by_cases hc : best.2 < q.2
    · rw [if_pos hc]
      obtain ⟨h1, h2⟩ := ih q
      refine ⟨le_of_lt (lt_of_lt_of_le hc h1), ?_⟩
      intro p hp
      rcases List.mem_cons.mp hp with hpq | hp2
      · rw [hpq]; exact h1
      · exact h2 p hp2
    · rw [if_neg hc]
      obtain ⟨h1, h2⟩ := ih best
      refine ⟨h1, ?_⟩
      intro p hp
      rcases List.mem_cons.mp hp with hpq | hp2
      · rw [hpq]; exact le_trans (le_of_not_lt hc) h1
      · exact h2 p hp2

theorem idxmaxAux_mem (l : List (ℕ × ℚ)) :
    ∀ best : ℕ × ℚ, idxmaxAux best l = best ∨ idxmaxAux best l ∈ l := by
  induction l with
  | nil => intro best; exact Or.inl rfl
  | cons q t ih =>
    intro best
    simp only [idxmaxAux]
    by_cases hc : best.2 < q.2
    · rw [if_pos hc]
      rcases ih q with h | h
      · exact Or.inr (by rw [h]; exact List.mem_cons_self q t)
      · exact Or.inr (List.mem_cons_of_mem q h)
    · rw [if_neg hc]
      rcases ih best with h | h
      · exact Or.inl h
      · exact Or.inr (List.mem_cons_of_mem q h)

theorem idxmaxAux_first (l : List (ℕ × ℚ)) :
    ∀ best : ℕ × ℚ,
      ((best :: l).Pairwise (fun a b : ℕ × ℚ => a.1 < b.1)) →
      ∀ p : ℕ × ℚ, (p = best ∨ p ∈ l) → p.2 = (idxmaxAux best l).2 →
        (idxmaxAux best l).1 ≤ p.1 := by
  induction l with
  | nil =>
    intro best _ p hp hv
    rcases hp with hpb | hmem
    · rw [hpb]
      exact le_refl _
    · cases hmem
  | cons q t ih =>
    intro best hpw p hp hv
    rw [List.pairwise_cons] at hpw
    obtain ⟨hbest, hqt⟩ := hpw
    have hbq : best.1 < q.1 := hbest q (List.mem_cons_self q t)
    simp only [idxmaxAux] at hv ⊢
    by_cases hc : best.2 < q.2
    · rw [if_pos hc] at hv ⊢
      rcases hp with hpb | hmem
      · have h1 := (idxmaxAux_le t q).1
        rw [hpb] at hv
        exact absurd hv (ne_of_lt (lt_of_lt_of_le hc h1))
      · rcases List.mem_cons.mp hmem with hpq | hmem2
        · exact ih q hqt p (Or.inl hpq) hv
        · exact ih q hqt p (Or.inr hmem2) hv
    · rw [if_neg hc] at hv ⊢
      have hbpw : ((best :: t).Pairwise (fun a b : ℕ × ℚ => a.1 < b.1)) := by
        rw [List.pairwise_cons]
        exact ⟨fun b hb => hbest b (List.mem_cons_of_mem q hb), (List.pairwise_cons.mp hqt).2⟩
      rcases hp with hpb | hmem
      · exact ih best hbpw p (Or.inl hpb) hv
      · rcases List.mem_cons.mp hmem with hpq | hmem2
        · have hble : best.2 ≤ (idxmaxAux best t).2 := (idxmaxAux_le t best).1
          have hqb : p.2 ≤ best.2 := by rw [hpq]; exact le_of_not_lt hc
          have hbeq : best.2 = (idxmaxAux best t).2 :=
            le_antisymm hble (by rw [← hv]; exact hqb)
          have hres := ih best hbpw best (Or.inl rfl) hbeq
          rw [hpq]
          exact le_trans hres (le_of_lt hbq)
        · exact ih best hbpw p (Or.inr hmem2) hv

theorem idxminAux_le (l : List (ℕ × ℚ)) :
    ∀ best : ℕ × ℚ, (idxminAux best l).2 ≤ best.2 ∧
      ∀ p ∈ l, (idxminAux best l).2 ≤ p.2 := by
  induction l with
  | nil =>
    intro best
    exact ⟨le_refl _, by intro p hp; cases hp⟩
  | cons q t ih =>
    intro best
    simp only [idxminAux]
    by_cases hc : q.2 < best.2
    · rw [if_pos hc]
      obtain ⟨h1, h2⟩ := ih q
      refine ⟨le_of_lt (lt_of_le_of_lt h1 hc), ?_⟩
      intro p hp
      rcases List.mem_cons.mp hp with hpq | hp2
      · rw [hpq]; exact h1
      · exact h2 p hp2
    · rw [if_neg hc]
      obtain ⟨h1, h2⟩ := ih best
      refine ⟨h1, ?_⟩
      intro p hp
      rcases List.mem_cons.mp hp with hpq | hp2
      · rw [hpq]; exact le_trans h1 (le_of_not_lt hc)
      · exact h2 p hp2

theorem idxminAux_mem (l : List (ℕ × ℚ)) :
    ∀ best : ℕ × ℚ, idxminAux best l = best ∨ idxminAux best l ∈ l := by
  induction l with
  | nil => intro best; exact Or.inl rfl
  | cons q t ih =>
    intro best
    simp only [idxminAux]
    by_cases hc : q.2 < best.2
    · rw [if_pos hc]
      rcases ih q with h | h
      · exact Or.inr (by rw [h]; exact List.mem_cons_self q t)
      · exact Or.inr (List.mem_cons_of_mem q h)
    · rw [if_neg hc]
      rcases ih best with h | h
      · exact Or.inl h
      · exact Or.inr (List.mem_cons_of_mem q h)

theorem idxminAux_first (l : List (ℕ × ℚ)) :
    ∀ best : ℕ × ℚ,
      ((best :: l).Pairwise (fun a b : ℕ × ℚ => a.1 < b.1)) →
      ∀ p : ℕ × ℚ, (p = best ∨ p ∈ l) → p.2 = (idxminAux best l).2 →
        (idxminAux best l).1 ≤ p.1 := by
  induction l with
  | nil =>
    intro best _ p hp hv
    rcases hp with hpb | hmem
    · rw [hpb]
      exact le_refl _
    · cases hmem
  | cons q t ih =>
    intro best hpw p hp hv
    rw [List.pairwise_cons] at hpw
    obtain ⟨hbest, hqt⟩ := hpw
    have hbq : best.1 < q.1 := hbest q (List.mem_cons_self q t)
    simp only [idxminAux] at hv ⊢
    by_cases hc : q.2 < best.2
    · rw [if_pos hc] at hv ⊢
      rcases hp with hpb | hmem
      · have h1 := (idxminAux_le t q).1
        rw [hpb] at hv
        exact absurd hv (ne_of_gt (lt_of_le_of_lt h1 hc))
      · rcases List.mem_cons.mp hmem with hpq | hmem2
        · exact ih q hqt p (Or.inl hpq) hv
        · exact ih q hqt p (Or.inr hmem2) hv
    · rw [if_neg hc] at hv ⊢
      have hbpw : ((best :: t).Pairwise (fun a b : ℕ × ℚ => a.1 < b.1)) := by
        rw [List.pairwise_cons]
        exact ⟨fun b hb => hbest b (List.mem_cons_of_mem q hb), (List.pairwise_cons.mp hqt).2⟩
      rcases hp with hpb | hmem
      · exact ih best hbpw p (Or.inl hpb) hv
      · rcases List.mem_cons.mp hmem with hpq | hmem2
        · have hble : (idxminAux best t).2 ≤ best.2 := (idxminAux_le t best).1
          have hqb : best.2 ≤ p.2 := by rw [hpq]; exact le_of_not_lt hc
          have hbeq : best.2 = (idxminAux best t).2 :=
            le_antisymm (by rw [← hv]; exact hqb) hble
          have hres := ih best hbpw best (Or.inl rfl) hbeq
          rw [hpq]
          exact le_trans hres (le_of_lt hbq)
        · exact ih best hbpw p (Or.inr hmem2) hv

theorem insertHour_lt (h a : ℕ) (t : List ℕ) (h1 : h < a) :
    insertHour h (a :: t) = h :: a :: t := by
  simp [insertHour, h1]

theorem insertHour_eq (h : ℕ) (t : List ℕ) :
    insertHour h (h :: t) = h :: t := by
  simp [insertHour, lt_self_iff_false]

theorem insertHour_gt (h a : ℕ) (t : List ℕ) (h1 : ¬h < a) (h2 : ¬h = a) :
    insertHour h (a :: t) = a :: insertHour h t := by
  simp [insertHour, h1, h2]

theorem mem_insertHour (h x : ℕ) :
    ∀ l : List ℕ, (x ∈ insertHour h l ↔ x = h ∨ x ∈ l) := by
  intro l
  induction l with
  | nil =>
    simp [insertHour]
  | cons a t ih =>
    by_cases h1 : h < a
    · rw [insertHour_lt h a t h1, List.mem_cons, List.mem_cons]
    · by_cases h2 : h = a
      · subst h2
        rw [insertHour_eq h t, List.mem_cons]
        tauto
      · rw [insertHour_gt h a t h1 h2, List.mem_cons, ih, List.mem_cons]
        tauto

theorem pairwise_insertHour (h : ℕ) :
    ∀ l : List ℕ, l.Pairwise (· < ·) → (insertHour h l).Pairwise (· < ·) := by
  intro l
  induction l with
  | nil =>
    intro _
    simp [insertHour]
  | cons a t ih =>
    intro hp
    rw [List.pairwise_cons] at hp
    obtain ⟨ha, ht⟩ := hp
    by_cases h1 : h < a
    · rw [insertHour_lt h a t h1]
      rw [List.pairwise_cons]
      refine ⟨?_, ?_⟩
      · intro b hb
        rcases List.mem_cons.mp hb with hba | hbt
        · rw [hba]; exact h1
        · exact lt_trans h1 (ha b hbt)
      · rw [List.pairwise_cons]; exact ⟨ha, ht⟩
    · by_cases h2 : h = a
      · subst h2
        rw [insertHour_eq h t]
        rw [List.pairwise_cons]
        exact ⟨ha, ht⟩
      · rw [insertHour_gt h a t h1 h2]
        rw [List.pairwise_cons]
        refine ⟨?_, ih ht⟩
        intro b hb
        rcases (mem_insertHour h b t).mp hb with hbh | hbt
        · rw [hbh]; omega
        · exact ha b hbt

theorem pairwise_group_hours (rs : List Row) : (group_hours rs).Pairwise (· < ·) := by
  unfold group_hours
  induction rs with
  | nil => exact List.Pairwise.nil
  | cons r t ih =>
    rw [List.foldr_cons]
    exact pairwise_insertHour _ _ ih

theorem mem_group_hours (x : ℕ) :
    ∀ rs : List Row, (x ∈ group_hours rs ↔ ∃ r ∈ rs, r.hr = x) := by
  intro rs
  unfold group_hours
  induction rs with
  | nil => simp
  | cons r t ih =>
    rw [List.foldr_cons, mem_insertHour]
    constructor
    · intro hx
      rcases hx with hxh | hmem
      · exact ⟨r, List.mem_cons_self r t, hxh.symm⟩
      · obtain ⟨r2, hr2, hhr⟩ := ih.mp hmem
        exact ⟨r2, List.mem_cons_of_mem r hr2, hhr⟩
    · intro hx
      obtain ⟨r2, hr2, hhr⟩ := hx
      rcases List.mem_cons.mp hr2 with hre | hrt
      · rw [hre] at hhr
        exact Or.inl hhr.symm
      · exact Or.inr (ih.mpr ⟨r2, hrt, hhr⟩)

theorem group_hours_ne_nil (rs : List Row) (h : rs ≠ []) : group_hours rs ≠ [] := by
  obtain ⟨r, t, hrt⟩ := List.exists_cons_of_ne_nil h
  have hm : r.hr ∈ group_hours rs :=
    (mem_group_hours r.hr rs).mpr ⟨r, by rw [hrt]; exact List.mem_cons_self r t, rfl⟩
  exact List.ne_nil_of_mem hm

theorem idxmax_over_sorted (rs : List Row) (h0 : ℕ) (t : List ℕ)
    (hpw : (((h0 :: t).map (fun h => (h, mean_cnt_at rs h))).Pairwise
      (fun a b : ℕ × ℚ => a.1 < b.1))) :
    ∃ hp : ℕ,
      idxmaxFirst ((h0 :: t).map (fun h => (h, mean_cnt_at rs h))) = some hp ∧
      hp ∈ h0 :: t ∧
      ∀ h ∈ h0 :: t, mean_cnt_at rs h ≤ mean_cnt_at rs hp ∧
        (mean_cnt_at rs h = mean_cnt_at rs hp → hp ≤ h) := by
  have hr1 : (idxmaxAux (h0, mean_cnt_at rs h0) (t.map (fun h => (h, mean_cnt_at rs h)))).1
        ∈ h0 :: t ∧
      (idxmaxAux (h0, mean_cnt_at rs h0) (t.map (fun h => (h, mean_cnt_at rs h)))).2 =
        mean_cnt_at rs
          (idxmaxAux (h0, mean_cnt_at rs h0) (t.map (fun h => (h, mean_cnt_at rs h)))).1 := by
    rcases idxmaxAux_mem (t.map (fun h => (h, mean_cnt_at rs h))) (h0, mean_cnt_at rs h0)
      with hm | hm
    · rw [hm]
      exact ⟨List.mem_cons_self _ _, rfl⟩
    · obtain ⟨h, hht, hfh⟩ := List.mem_map.mp hm
      rw [← hfh]
      exact ⟨List.mem_cons_of_mem _ hht, rfl⟩
  refine ⟨(idxmaxAux (h0, mean_cnt_at rs h0) (t.map (fun h => (h, mean_cnt_at rs h)))).1,
    ?_, hr1.1, ?_⟩
  · rw [List.map_cons]
    rfl
  intro h hh
  constructor
  · have hle := idxmaxAux_le (t.map (fun h => (h, mean_cnt_at rs h))) (h0, mean_cnt_at rs h0)
    rcases List.mem_cons.mp hh with hh0 | hht
    · rw [hh0, ← hr1.2]
      exact hle.1
    · rw [← hr1.2]
      exact hle.2 (h, mean_cnt_at rs h) (List.mem_map_of_mem _ hht)
  · intro he
    exact idxmaxAux_first (t.map (fun h => (h, mean_cnt_at rs h))) (h0, mean_cnt_at rs h0)
      (by simpa only [List.map_cons] using hpw) (h, mean_cnt_at rs h)
      (by
        rcases List.mem_cons.mp hh with hh0 | hht
        · exact Or.inl (by rw [hh0])
        · exact Or.inr (List.mem_map_of_mem _ hht))
      (by rw [hr1.2]; exact he)

theorem idxmin_over_sorted (rs : List Row) (h0 : ℕ) (t : List ℕ)
    (hpw : (((h0 :: t).map (fun h => (h, mean_cnt_at rs h))).Pairwise
      (fun a b : ℕ × ℚ => a.1 < b.1))) :
    ∃ ht : ℕ,
      idxminFirst ((h0 :: t).map (fun h => (h, mean_cnt_at rs h))) = some ht ∧
      ht ∈ h0 :: t ∧
      ∀ h ∈ h0 :: t, mean_cnt_at rs ht ≤ mean_cnt_at rs h ∧
        (mean_cnt_at rs h = mean_cnt_at rs ht → ht ≤ h) := by
  have hr1 : (idxminAux (h0, mean_cnt_at rs h0) (t.map (fun h => (h, mean_cnt_at rs h)))).1
        ∈ h0 :: t ∧
      (idxminAux (h0, mean_cnt_at rs h0) (t.map (fun h => (h, mean_cnt_at rs h)))).2 =
        mean_cnt_at rs
          (idxminAux (h0, mean_cnt_at rs h0) (t.map (fun h => (h, mean_cnt_at rs h)))).1 := by
    rcases idxminAux_mem (t.map (fun h => (h, mean_cnt_at rs h))) (h0, mean_cnt_at rs h0)
      with hm | hm
    · rw [hm]
      exact ⟨List.mem_cons_self _ _, rfl⟩
    · obtain ⟨h, hht, hfh⟩ := List.mem_map.mp hm
      rw [← hfh]
      exact ⟨List.mem_cons_of_mem _ hht, rfl⟩
  refine ⟨(idxminAux (h0, mean_cnt_at rs h0) (t.map (fun h => (h, mean_cnt_at rs h)))).1,
    ?_, hr1.1, ?_⟩
  · rw [List.map_cons]
    rfl
  intro h hh
  constructor
  · have hle := idxminAux_le (t.map (fun h => (h, mean_cnt_at rs h))) (h0, mean_cnt_at rs h0)
    rcases List.mem_cons.mp hh with hh0 | hht
    · rw [hh0, ← hr1.2]
      exact hle.1
    · rw [← hr1.2]
      exact hle.2 (h, mean_cnt_at rs h) (List.mem_map_of_mem _ hht)
  · intro he
    exact idxminAux_first (t.map (fun h => (h, mean_cnt_at rs h))) (h0, mean_cnt_at rs h0)
      (by simpa only [List.map_cons] using hpw) (h, mean_cnt_at rs h)
      (by
        rcases List.mem_cons.mp hh with hh0 | hht
        · exact Or.inl (by rw [hh0])
        · exact Or.inr (List.mem_map_of_mem _ hht))
      (by rw [hr1.2]; exact he)

/-- C7: over any non-empty filtered set, the peak-hour metric is the hour
whose per-hour mean `cnt` is maximal, with ties resolved to the LOWEST hour
(pandas `idxmax` returns the first index attaining the maximum, and the
groupby index is sorted ascending); symmetrically the least-active-hour
metric is the stable arg-min. -/
theorem peak_trough_hour_stable (rs : List Row) (hne : rs ≠ []) :
    ∃ hp ht : ℕ,
      peak_hour rs = some hp ∧ trough_hour rs = some ht ∧
      hp ∈ group_hours rs ∧ ht ∈ group_hours rs ∧
      ∀ h ∈ group_hours rs,
        mean_cnt_at rs h ≤ mean_cnt_at rs hp ∧
        (mean_cnt_at rs h = mean_cnt_at rs hp → hp ≤ h) ∧
        mean_cnt_at rs ht ≤ mean_cnt_at rs h ∧
        (mean_cnt_at rs h = mean_cnt_at rs ht → ht ≤ h) := by
  obtain ⟨h0, t, hhs⟩ := List.exists_cons_of_ne_nil (group_hours_ne_nil rs hne)
  have hpw : (((h0 :: t).map (fun h => (h, mean_cnt_at rs h))).Pairwise
      (fun a b : ℕ × ℚ => a.1 < b.1)) := by
    rw [List.pairwise_map]
    have hs := pairwise_group_hours rs
    rw [hhs] at hs
    exact hs
  obtain ⟨hp, hpk, hpmem, hpprop⟩ := idxmax_over_sorted rs h0 t hpw
  obtain ⟨ht, htk, htmem, htprop⟩ := idxmin_over_sorted rs h0 t hpw
  refine ⟨hp, ht, ?_, ?_, ?_, ?_, ?_⟩
  · unfold peak_hour hour_mean_pairs
    rw [hhs]
    exact hpk
  · unfold trough_hour hour_mean_pairs
    rw [hhs]
    exact htk
  · rw [hhs]
    exact hpmem
  · rw [hhs]
    exact htmem
  · intro h hh
    rw [hhs] at hh
    exact ⟨(hpprop h hh).1, (hpprop h hh).2, (htprop h hh).1, (htprop h hh).2⟩

/-- C7 witness: the spec's tie scenario — hours 8 and 17 both mean 100,
hour 3 lower — applied to the stability theorem. -/
theorem peak_trough_hour_stable_witness :
    demoRs7 ≠ [] ∧
    (∃ hp ht : ℕ,
      peak_hour demoRs7 = some hp ∧ trough_hour demoRs7 = some ht ∧
      hp ∈ group_hours demoRs7 ∧ ht ∈ group_hours demoRs7 ∧
      ∀ h ∈ group_hours demoRs7,
        mean_cnt_at demoRs7 h ≤ mean_cnt_at demoRs7 hp ∧
        (mean_cnt_at demoRs7 h = mean_cnt_at demoRs7 hp → hp ≤ h) ∧
        mean_cnt_at demoRs7 ht ≤ mean_cnt_at demoRs7 h ∧
        (mean_cnt_at demoRs7 h = mean_cnt_at demoRs7 ht → ht ≤ h)) :=
  ⟨by decide, peak_trough_hour_stable demoRs7 (by decide)⟩

/-- C4 counterexample: on a concrete filtered set with a single observed
hour, page 1 renders its metric row with the hourly-demand-variability slot
holding NaN (modelled `none`): the computation silently produces NaN, which
the page displays, rather than signalling any `InsufficientData` condition
(no such signal exists in the code). -/
theorem hour_variability_nan_rendered :
    temporalRun demoDf4 demoP4 = TemporalOutcome.render (some 5) (some 5) none := by
  decide

/-- C4 amended: the variability metric is NaN exactly when fewer than two
distinct hours are present (and the page still renders it); with at least
two distinct hours it equals the spec's ddof=1 sample statistic of the
per-hour mean `cnt` series (compared as variances; the displayed std is the
square root of both sides). -/
theorem hour_variability_amended (rs : List Row) :
    (hour_std_sq rs = none ↔ (group_hours rs).length < 2) ∧
    (2 ≤ (group_hours rs).length →
      hour_std_sq rs = some (spec_sample_variance (hour_means rs))) := by
  have hlen : (hour_means rs).length = (group_hours rs).length := List.length_map _ _
  constructor
  · constructor
    · intro h
      by_contra hlt
      push_neg at hlt
      unfold hour_std_sq pd_sample_var at h
      rw [if_neg (by omega)] at h
      exact Option.some_ne_none _ h
    · intro h
      unfold hour_std_sq pd_sample_var
      rw [if_pos (by omega)]
  · intro h
    unfold hour_std_sq pd_sample_var spec_sample_variance
    rw [if_neg (by omega)]

/-- C4 witness: the amended statement applied at a two-hour set (defined
branch) and at the one-hour set (NaN branch). -/
theorem hour_variability_amended_witness :
    2 ≤ (group_hours demoDf4w).length ∧
    hour_std_sq demoDf4w = some (spec_sample_variance (hour_means demoDf4w)) ∧
    hour_std_sq demoDf4 = none :=
  ⟨by decide, (hour_variability_amended demoDf4w).2 (by decide),
   (hour_variability_amended demoDf4).1.mpr (by decide)⟩

/-- C5 counterexample: a concrete non-empty filtered set with casual sum 0
and registered sum 7 — the page computes `registered_sum / casual_sum` with
numpy semantics, obtaining +inf, and renders the metric; no
`DivisionUndefined` failure occurs anywhere on this path. -/
theorem reg_casual_division_inf_rendered :
    sum_casual (behavior_rows demoDf5 demoP5) = 0 ∧
    0 < sum_registered (behavior_rows demoDf5 demoP5) ∧
    rendered_reg_over_cas (behaviorRun demoDf5 demoP5) = some NpFloat.inf := by
  decide

/-- C5 amended: on a non-empty filtered set the rendered registered/casual
ratio is `registered_sum / casual_sum` when the casual sum is nonzero, and
is +inf (positive registered sum) or NaN (zero registered sum) when the
casual sum is 0 — the metric is rendered in every case, never turned into a
`DivisionUndefined` failure. -/
theorem reg_casual_division_amended (df : List Row) (p : Params)
    (hne : behavior_rows df p ≠ []) :
    (sum_casual (behavior_rows df p) = 0 → 0 < sum_registered (behavior_rows df p) →
      rendered_reg_over_cas (behaviorRun df p) = some NpFloat.inf) ∧
    (sum_casual (behavior_rows df p) = 0 → sum_registered (behavior_rows df p) = 0 →
      rendered_reg_over_cas (behaviorRun df p) = some NpFloat.nan) ∧
    (sum_casual (behavior_rows df p) ≠ 0 →
      rendered_reg_over_cas (behaviorRun df p) =
        some (NpFloat.fin ((sum_registered (behavior_rows df p) : ℚ) /
          (sum_casual (behavior_rows df p) : ℚ)))) := by
  have hF : ¬((behavior_rows df p).isEmpty = true) := by
    rw [List.isEmpty_iff]
    exact hne
  have hren : behaviorRun df p = BehaviorOutcome.render
      (npDivNat (100 * sum_registered (behavior_rows df p))
        (sum_casual (behavior_rows df p) + sum_registered (behavior_rows df p)))
      (npDivNat (100 * sum_casual (behavior_rows df p))
        (sum_casual (behavior_rows df p) + sum_registered (behavior_rows df p)))
      (npDivNat (sum_registered (behavior_rows df p))
        (sum_casual (behavior_rows df p))) := by
    unfold behaviorRun
    rw [if_neg hF]
  refine ⟨?_, ?_, ?_⟩
  · intro h0 hpos
    rw [hren]
    simp only [rendered_reg_over_cas, Option.some.injEq]
    unfold npDivNat
    rw [if_neg (by omega), if_pos (by omega)]
  · intro h0 hz
    rw [hren]
    simp only [rendered_reg_over_cas, Option.some.injEq]
    unfold npDivNat
    rw [if_neg (by omega), if_neg (by omega)]
  · intro h0
    rw [hren]
    simp only [rendered_reg_over_cas, Option.some.injEq]
    unfold npDivNat
    rw [if_pos h0]

/-- C5 witness: the amended statement's finite branch applied at a concrete
set with casual sum 2 and registered sum 6. -/
theorem reg_casual_division_amended_witness :
    behavior_rows demoDf5b demoP5 ≠ [] ∧
    rendered_reg_over_cas (behaviorRun demoDf5b demoP5) =
      some (NpFloat.fin ((sum_registered (behavior_rows demoDf5b demoP5) : ℚ) /
        (sum_casual (behavior_rows demoDf5b demoP5) : ℚ))) :=
  ⟨by decide, (reg_casual_division_amended demoDf5b demoP5 (by decide)).2.2 (by decide)⟩
